import Mathlib

/-!
Verification development for the advance-appointment side panel
(`src/panel.js`).  The panel's wizard state machine and its pure helper
functions are shallowly embedded below; dates are modelled at calendar-day
granularity as integer day numbers counted from the Unix epoch
(1970-01-01 = day 0), which is the granularity at which the panel uses
them (it zeroes the time-of-day wherever it matters).  The JavaScript
`Date` builtin's calendar conversions are modelled by an executable,
fully verified proleptic-Gregorian conversion pair.
-/

/-! ## Calendar model (JS `Date` builtin, day granularity) -/

/-- A civil (proleptic Gregorian) calendar date: year, month `1..12`,
day `1..31`. -/
structure CivilDate where
  year : Int
  month : Int
  day : Int
deriving Repr, DecidableEq

/-- Days before era-year `y` inside one 400-year Gregorian era
(era years are reckoned from March 1, so the leap day lands at the end
of an era year). -/
def dby (y : Int) : Int := 365 * y + y / 4 - y / 100

/-- Day number (days since 1970-01-01) of a civil date. -/
def daysFromCivil (c : CivilDate) : Int :=
  let y := if c.month ≤ 2 then c.year - 1 else c.year
  let era := y / 400
  let yoe := y - era * 400
  let mp := if c.month > 2 then c.month - 3 else c.month + 9
  let doy := (153 * mp + 2) / 5 + c.day - 1
  let doe := dby yoe + doy
  era * 146097 + doe - 719468

/-- Civil date of a day number: locate the 400-year era, then the era
year by an estimate plus at most two corrections, then the month by the
standard five-month-cycle formula. -/
def civilFromDays (z : Int) : CivilDate :=
  let zsh := z + 719468
  let era := zsh / 146097
  let doe := zsh - era * 146097
  let y0 := doe / 366
  let y1 := if y0 + 1 ≤ 399 ∧ dby (y0 + 1) ≤ doe then y0 + 1 else y0
  let yoe := if y1 + 1 ≤ 399 ∧ dby (y1 + 1) ≤ doe then y1 + 1 else y1
  let doy := doe - dby yoe
  let mp := (5 * doy + 2) / 153
  let d := doy - (153 * mp + 2) / 5 + 1
  let m := if mp < 10 then mp + 3 else mp - 9
  ⟨if m ≤ 2 then yoe + era * 400 + 1 else yoe + era * 400, m, d⟩

example : civilFromDays 0 = ⟨1970, 1, 1⟩ := by decide
example : daysFromCivil ⟨1970, 1, 1⟩ = 0 := by decide
example : civilFromDays 20737 = ⟨2026, 10, 11⟩ := by decide
example : civilFromDays (-1) = ⟨1969, 12, 31⟩ := by decide
example : civilFromDays 19782 = ⟨2024, 2, 29⟩ := by decide
example : daysFromCivil ⟨2024, 2, 29⟩ = 19782 := by decide
example : civilFromDays 11016 = ⟨2000, 2, 29⟩ := by decide
example : civilFromDays 11017 = ⟨2000, 3, 1⟩ := by decide

set_option maxHeartbeats 1000000 in
/-- The estimate-plus-two-corrections era-year search is correct: it
lands on the era year containing day-of-era `doe`. -/
theorem yoe_spec (doe y0 y1 yoe : Int)
    (hdoe0 : 0 ≤ doe) (hdoe1 : doe ≤ 146096)
    (hy0 : y0 = doe / 366)
    (hy1 : y1 = if y0 + 1 ≤ 399 ∧ dby (y0 + 1) ≤ doe then y0 + 1 else y0)
    (hyoe : yoe = if y1 + 1 ≤ 399 ∧ dby (y1 + 1) ≤ doe then y1 + 1 else y1) :
    0 ≤ yoe ∧ yoe ≤ 399 ∧ dby yoe ≤ doe ∧ doe - dby yoe ≤ 365 := by
  simp only [dby] at *
  split_ifs at hy1 hyoe <;> subst_vars <;> omega

set_option maxHeartbeats 1000000 in
/-- The five-month-cycle formula recovers a valid era month and
day-of-month from a day-of-year. -/
theorem month_spec (doy mp : Int) (h0 : 0 ≤ doy) (h1 : doy ≤ 365)
    (hmp : mp = (5 * doy + 2) / 153) :
    0 ≤ mp ∧ mp ≤ 11 ∧ (153 * mp + 2) / 5 ≤ doy ∧
    1 ≤ doy - (153 * mp + 2) / 5 + 1 ∧ doy - (153 * mp + 2) / 5 + 1 ≤ 31 := by
  omega

set_option maxHeartbeats 2000000 in
/-- Core of the conversion round trip, stated over the flattened
intermediate values of `civilFromDays`. -/
theorem daysFromCivil_core
    (z zsh era doe y0 y1 yoe doy mp d m yr : Int)
    (hz : zsh = z + 719468)
    (hera : era = zsh / 146097)
    (hdoe : doe = zsh - era * 146097)
    (hy0 : y0 = doe / 366)
    (hy1 : y1 = if y0 + 1 ≤ 399 ∧ dby (y0 + 1) ≤ doe then y0 + 1 else y0)
    (hyoe : yoe = if y1 + 1 ≤ 399 ∧ dby (y1 + 1) ≤ doe then y1 + 1 else y1)
    (hdoy : doy = doe - dby yoe)
    (hmp : mp = (5 * doy + 2) / 153)
    (hd : d = doy - (153 * mp + 2) / 5 + 1)
    (hm : m = if mp < 10 then mp + 3 else mp - 9)
    (hyr : yr = if m ≤ 2 then yoe + era * 400 + 1 else yoe + era * 400) :
    daysFromCivil ⟨yr, m, d⟩ = z := by
  have hdoer : 0 ≤ doe ∧ doe ≤ 146096 := by omega
  have hyspec := yoe_spec doe y0 y1 yoe hdoer.1 hdoer.2 hy0 hy1 hyoe
  have hmpb : 0 ≤ mp ∧ mp ≤ 11 := ⟨by omega, by omega⟩
  simp only [daysFromCivil]
  have hyint : (if m ≤ 2 then yr - 1 else yr) = yoe + era * 400 := by
    split_ifs at hm hyr ⊢ <;> omega
  rw [hyint]
  have hera2 : (yoe + era * 400) / 400 = era := by omega
  rw [hera2]
  have hmp2 : (if m > 2 then m - 3 else m + 9) = mp := by
    split_ifs at hm ⊢ <;> omega
  rw [hmp2]
  have hyoe2 : yoe + era * 400 - era * 400 = yoe := by ring
  rw [hyoe2]
  clear hyint hmp2 hyr hm hy1 hyoe
  simp only [dby] at *
  omega

set_option maxHeartbeats 2000000 in
/-- Converting a day number to a civil date and back is the identity. -/
theorem daysFromCivil_civilFromDays (z : Int) :
    daysFromCivil (civilFromDays z) = z := by
  have h : civilFromDays z =
      ⟨(civilFromDays z).year, (civilFromDays z).month, (civilFromDays z).day⟩ := rfl
  rw [h]
  exact daysFromCivil_core z _ _ _ _ _ _ _ _ _ _ _ rfl rfl rfl rfl rfl rfl rfl rfl rfl rfl rfl

set_option maxHeartbeats 2000000 in
/-- Field bounds of `civilFromDays`: the month and day are valid, and the
year is within 400 of `400 * era`. -/
theorem civilFromDays_bounds_core
    (z zsh era doe y0 y1 yoe doy mp d m yr : Int)
    (hz : zsh = z + 719468)
    (hera : era = zsh / 146097)
    (hdoe : doe = zsh - era * 146097)
    (hy0 : y0 = doe / 366)
    (hy1 : y1 = if y0 + 1 ≤ 399 ∧ dby (y0 + 1) ≤ doe then y0 + 1 else y0)
    (hyoe : yoe = if y1 + 1 ≤ 399 ∧ dby (y1 + 1) ≤ doe then y1 + 1 else y1)
    (hdoy : doy = doe - dby yoe)
    (hmp : mp = (5 * doy + 2) / 153)
    (hd : d = doy - (153 * mp + 2) / 5 + 1)
    (hm : m = if mp < 10 then mp + 3 else mp - 9)
    (hyr : yr = if m ≤ 2 then yoe + era * 400 + 1 else yoe + era * 400) :
    1 ≤ m ∧ m ≤ 12 ∧ 1 ≤ d ∧ d ≤ 31 ∧
    400 * era ≤ yr ∧ yr ≤ 400 * era + 400 := by
  have hdoer : 0 ≤ doe ∧ doe ≤ 146096 := by omega
  have hyspec := yoe_spec doe y0 y1 yoe hdoer.1 hdoer.2 hy0 hy1 hyoe
  have hmspec := month_spec doy mp (by omega) (by omega) hmp
  split_ifs at hm hyr <;> omega

set_option maxHeartbeats 2000000 in
/-- Component bounds of `civilFromDays`, packaged on the structure. -/
theorem civilFromDays_bounds (z : Int) :
    1 ≤ (civilFromDays z).month ∧ (civilFromDays z).month ≤ 12 ∧
    1 ≤ (civilFromDays z).day ∧ (civilFromDays z).day ≤ 31 ∧
    400 * ((z + 719468) / 146097) ≤ (civilFromDays z).year ∧
    (civilFromDays z).year ≤ 400 * ((z + 719468) / 146097) + 400 :=
  civilFromDays_bounds_core z _ _ _ _ _ _ _ _ _
    (civilFromDays z).month (civilFromDays z).year
    rfl rfl rfl rfl rfl rfl rfl rfl rfl rfl rfl

/-! ## JS date helpers used by the panel (`src/panel.js` date section) -/

/-- JS `Date.prototype.getDay`: 0 = Sunday … 6 = Saturday.
Day 0 (1970-01-01) was a Thursday. -/
def getDay (z : Int) : Int := (z + 4) % 7

/-- `addDays` from `src/panel.js` (day-granular). -/
def addDays (z : Int) (days : Int) : Int := z + days

/-- `addMonths` from `src/panel.js`: JS `setMonth` semantics — month
overflow rolls the year (floor division), day-of-month overflow spills
into the following month(s). -/
def addMonths (z : Int) (months : Int) : Int :=
  let c := civilFromDays z
  let m0 := c.month - 1 + months
  let ny := c.year + m0 / 12
  let nm := m0 % 12 + 1
  daysFromCivil ⟨ny, nm, 1⟩ + (c.day - 1)

example : addMonths 20737 6 = daysFromCivil ⟨2027, 4, 11⟩ := by decide
example : addMonths (daysFromCivil ⟨2026, 1, 31⟩) 1 = daysFromCivil ⟨2026, 3, 3⟩ := by
  decide
example : addMonths (daysFromCivil ⟨2026, 11, 15⟩) 3 = daysFromCivil ⟨2027, 2, 15⟩ := by
  decide
example : getDay 20737 = 0 := by decide
example : getDay 20741 = 4 := by decide

/-! ## String joining (JS `Array.prototype.join`) -/

/-- JS `array.join(s)`. -/
def joinWith (s : String) : List String → String
  | [] => ""
  | [x] => x
  | x :: y :: rest => x ++ s ++ joinWith s (y :: rest)

theorem joinWith_nil (s : String) : joinWith s [] = "" := rfl

theorem joinWith_single (s x : String) : joinWith s [x] = x := rfl

theorem joinWith_cons2 (s x y : String) (rest : List String) :
    joinWith s (x :: y :: rest) = x ++ s ++ joinWith s (y :: rest) := rfl

/-- Joining a concatenation of two non-empty line lists inserts one
separator at the junction. -/
theorem joinWith_append (s : String) (xs ys : List String)
    (hxs : xs ≠ []) (hys : ys ≠ []) :
    joinWith s (xs ++ ys) = joinWith s xs ++ s ++ joinWith s ys := by
  induction xs with
  | nil => exact absurd rfl hxs
  | cons x xs ih =>
    cases xs with
    | nil =>
      cases ys with
      | nil => exact absurd rfl hys
      | cons y ys => simp [joinWith]
    | cons x2 xs2 =>
      have h2 := ih (by simp)
      simp only [List.cons_append] at *
      rw [joinWith_cons2, joinWith_cons2, h2]
      simp [String.append_assoc]

/-! ## JS JSON values and coercions

`JVal` models the values that can appear in a field of the
`JSON.parse`d persisted blob; the coercions below model the JS builtins
(`String(x)`, `Number(x)`, truthiness) that `hydratePanelState` applies
to them. -/

/-- JS whitespace characters recognized by `String.prototype.trim`
(ASCII subset). -/
def isWsChar (c : Char) : Bool :=
  c = ' ' || c = '\t' || c = '\n' || c = '\r' || c.toNat = 11 || c.toNat = 12

def dropLeadingWs : List Char → List Char
  | [] => []
  | c :: rest => if isWsChar c then dropLeadingWs rest else c :: rest

/-- JS `String.prototype.trim` (executable model). -/
def jsTrim (s : String) : String :=
  String.mk ((dropLeadingWs (dropLeadingWs s.data).reverse).reverse)

/-- ASCII uppercase of one character (JS `toUpperCase` on the ASCII
status vocabulary the panel uses). -/
def upChar (c : Char) : Char :=
  if 97 ≤ c.toNat ∧ c.toNat ≤ 122 then Char.ofNat (c.toNat - 32) else c

/-- JS `String.prototype.toUpperCase` (executable ASCII model). -/
def jsToUpperCase (s : String) : String := String.mk (s.data.map upChar)

example : jsTrim "  hi\t " = "hi" := by decide
example : jsToUpperCase "Approved " = "APPROVED " := by decide

inductive JVal where
  | null : JVal
  | bool (b : Bool) : JVal
  | num (n : Int) : JVal
  | str (s : String) : JVal
  | arr (elems : List JVal) : JVal
deriving Repr

mutual

def JVal.beq : JVal → JVal → Bool
  | .null, .null => true
  | .bool a, .bool b => a == b
  | .num a, .num b => a == b
  | .str a, .str b => a == b
  | .arr a, .arr b => JVal.beqList a b
  | _, _ => false

def JVal.beqList : List JVal → List JVal → Bool
  | [], [] => true
  | x :: xs, y :: ys => JVal.beq x y && JVal.beqList xs ys
  | _, _ => false

end

mutual

theorem JVal.beq_iff : ∀ a b : JVal, JVal.beq a b = true ↔ a = b
  | .null, .null => by simp [JVal.beq]
  | .null, .bool _ | .null, .num _ | .null, .str _ | .null, .arr _ => by simp [JVal.beq]
  | .bool _, .null | .bool _, .num _ | .bool _, .str _ | .bool _, .arr _ => by
    simp [JVal.beq]
  | .bool a, .bool b => by simp [JVal.beq]
  | .num _, .null | .num _, .bool _ | .num _, .str _ | .num _, .arr _ => by
    simp [JVal.beq]
  | .num a, .num b => by simp [JVal.beq]
  | .str _, .null | .str _, .bool _ | .str _, .num _ | .str _, .arr _ => by
    simp [JVal.beq]
  | .str a, .str b => by simp [JVal.beq]
  | .arr _, .null | .arr _, .bool _ | .arr _, .num _ | .arr _, .str _ => by
    simp [JVal.beq]
  | .arr xs, .arr ys => by
    simp only [JVal.beq, JVal.arr.injEq]
    exact JVal.beqList_iff xs ys

theorem JVal.beqList_iff : ∀ xs ys : List JVal, JVal.beqList xs ys = true ↔ xs = ys
  | [], [] => by simp [JVal.beqList]
  | [], _ :: _ => by simp [JVal.beqList]
  | _ :: _, [] => by simp [JVal.beqList]
  | x :: xs, y :: ys => by
    simp only [JVal.beqList, Bool.and_eq_true, List.cons.injEq]
    exact and_congr (JVal.beq_iff x y) (JVal.beqList_iff xs ys)

end

instance : DecidableEq JVal := fun a b =>
  decidable_of_iff (JVal.beq a b = true) (JVal.beq_iff a b)

mutual

/-- JS `String(x)` on a JSON value. -/
def jsToString : JVal → String
  | .null => "null"
  | .bool b => if b then "true" else "false"
  | .num n => toString n
  | .str s => s
  | .arr xs => jsArrString xs

/-- JS `Array.prototype.toString`: elements joined with a comma,
`null` elements rendering as the empty string. -/
def jsArrString : List JVal → String
  | [] => ""
  | [.null] => ""
  | [v] => jsToString v
  | .null :: rest => "," ++ jsArrString rest
  | v :: rest => jsToString v ++ "," ++ jsArrString rest

end

/-- Decimal digit value of a character, if it is one. -/
def digVal (c : Char) : Option Int :=
  if 48 ≤ c.toNat ∧ c.toNat ≤ 57 then some ((c.toNat : Int) - 48) else none

/-- Leading decimal digits of a trimmed numeric string. -/
def parseDigits : List Char → Int → Option Int
  | [], acc => some acc
  | c :: rest, acc =>
    match digVal c with
    | some d => parseDigits rest (acc * 10 + d)
    | none => none

/-- JS `Number(string)` restricted to integer-valued strings: a trimmed
empty string is `0`, an optional sign followed by digits parses, and
anything else is `NaN` (modelled as `none`). -/
def jsStringToNumber (s : String) : Option Int :=
  let t := jsTrim s
  if t = "" then some 0
  else
    match t.data with
    | '-' :: rest => if rest = [] then none else (parseDigits rest 0).map (fun n => -n)
    | '+' :: rest => if rest = [] then none else parseDigits rest 0
    | cs => parseDigits cs 0

/-- JS `Number(x)` on a JSON value (`NaN` modelled as `none`). -/
def jsToNumber : JVal → Option Int
  | .null => some 0
  | .bool b => some (if b then 1 else 0)
  | .num n => some n
  | .str s => jsStringToNumber s
  | .arr xs => jsStringToNumber (jsArrString xs)

/-- JS `Number(v) || dflt`: both `NaN` and `0` fall back. -/
def jsOrNum (v : JVal) (dflt : Int) : Int :=
  match jsToNumber v with
  | none => dflt
  | some n => if n = 0 then dflt else n

/-- JS truthiness of a JSON value. -/
def jvalTruthy : JVal → Bool
  | .null => false
  | .bool b => b
  | .num n => n != 0
  | .str s => s != ""
  | .arr _ => true

example : jsToNumber (.str " 42 ") = some 42 := by decide
example : jsToNumber (.str "abc") = none := by decide
example : jsToNumber (.arr [.num 7]) = some 7 := by decide
example : jsOrNum (.str "abc") 1 = 1 := by decide
example : jsOrNum (.num 0) 1 = 1 := by decide
example : jsOrNum (.num 3) 1 = 3 := by decide

/-! ## ISO-8601 date strings (JS `toISOString` / `new Date(string)`,
day granularity) -/

/-- The decimal digit character for `n ∈ [0, 9]`. -/
def digitChar (n : Int) : Char :=
  if n = 0 then '0' else if n = 1 then '1' else if n = 2 then '2'
  else if n = 3 then '3' else if n = 4 then '4' else if n = 5 then '5'
  else if n = 6 then '6' else if n = 7 then '7' else if n = 8 then '8' else '9'

def pad2 (n : Int) : String := String.mk [digitChar (n / 10 % 10), digitChar (n % 10)]

def pad4 (n : Int) : String :=
  String.mk [digitChar (n / 1000 % 10), digitChar (n / 100 % 10),
    digitChar (n / 10 % 10), digitChar (n % 10)]

def pad6 (n : Int) : String :=
  String.mk [digitChar (n / 100000 % 10), digitChar (n / 10000 % 10),
    digitChar (n / 1000 % 10), digitChar (n / 100 % 10),
    digitChar (n / 10 % 10), digitChar (n % 10)]

def isoSuffix : String := "T00:00:00.000Z"

/-- JS `new Date(day).toISOString()` at day granularity (midnight UTC):
years `0..9999` print as four digits, years outside that range print in
the expanded six-digit signed format. -/
def isoOfDay (z : Int) : String :=
  let c := civilFromDays z
  let ys :=
    if 0 ≤ c.year ∧ c.year ≤ 9999 then pad4 c.year
    else if c.year < 0 then "-" ++ pad6 (-c.year)
    else "+" ++ pad6 c.year
  ys ++ "-" ++ pad2 c.month ++ "-" ++ pad2 c.day ++ isoSuffix

/-- Read exactly `k` decimal digits, accumulating their value. -/
def readNatDigits : Nat → Int → List Char → Option (Int × List Char)
  | 0, acc, cs => some (acc, cs)
  | k + 1, acc, c :: cs =>
    match digVal c with
    | some d => readNatDigits k (acc * 10 + d) cs
    | none => none
  | _ + 1, _, [] => none

/-- Parse `-MM-DD` followed by the midnight-UTC suffix (or nothing). -/
def parseYmdTail (cs : List Char) : Option (Int × Int) :=
  match cs with
  | '-' :: cs => do
    let (m, cs) ← readNatDigits 2 0 cs
    match cs with
    | '-' :: cs => do
      let (d, cs) ← readNatDigits 2 0 cs
      if cs = isoSuffix.data ∨ cs = [] then some (m, d) else none
    | _ => none
  | _ => none

/-- JS `new Date(string)` on the ISO strings `isoOfDay` produces,
returning the day number. -/
def parseISODay (s : String) : Option Int :=
  match s.data with
  | [] => none
  | c :: cs =>
    if c = '+' then do
      let (y, cs) ← readNatDigits 6 0 cs
      let (m, d) ← parseYmdTail cs
      some (daysFromCivil ⟨y, m, d⟩)
    else if c = '-' then do
      let (y, cs) ← readNatDigits 6 0 cs
      let (m, d) ← parseYmdTail cs
      some (daysFromCivil ⟨-y, m, d⟩)
    else do
      let (y, cs) ← readNatDigits 4 0 (c :: cs)
      let (m, d) ← parseYmdTail cs
      some (daysFromCivil ⟨y, m, d⟩)

example : isoOfDay 20737 = "2026-10-11T00:00:00.000Z" := by decide
example : parseISODay "2026-10-11T00:00:00.000Z" = some 20737 := by decide
example : parseISODay "1969-12-31T00:00:00.000Z" = some (-1) := by decide

theorem digVal_digitChar (n : Int) (h0 : 0 ≤ n) (h1 : n ≤ 9) :
    digVal (digitChar n) = some n := by
  interval_cases n <;> decide

theorem digitChar_not_sign (n : Int) (h0 : 0 ≤ n) (h1 : n ≤ 9) :
    digitChar n ≠ '+' ∧ digitChar n ≠ '-' := by
  interval_cases n <;> exact ⟨by decide, by decide⟩

theorem readNatDigits_step (k : Nat) (acc d : Int) (c : Char) (cs : List Char)
    (h : digVal c = some d) :
    readNatDigits (k + 1) acc (c :: cs) = readNatDigits k (acc * 10 + d) cs := by
  simp [readNatDigits, h]

theorem readNatDigits_two (n : Int) (h0 : 0 ≤ n) (h1 : n ≤ 99) (cs : List Char) :
    readNatDigits 2 0 (digitChar (n / 10 % 10) :: digitChar (n % 10) :: cs) =
      some (n, cs) := by
  rw [readNatDigits_step _ _ _ _ _ (digVal_digitChar _ (by omega) (by omega)),
    readNatDigits_step _ _ _ _ _ (digVal_digitChar _ (by omega) (by omega))]
  show some _ = some _
  congr 2
  omega

theorem readNatDigits_four (n : Int) (h0 : 0 ≤ n) (h1 : n ≤ 9999) (cs : List Char) :
    readNatDigits 4 0 (digitChar (n / 1000 % 10) :: digitChar (n / 100 % 10) ::
      digitChar (n / 10 % 10) :: digitChar (n % 10) :: cs) = some (n, cs) := by
  rw [readNatDigits_step _ _ _ _ _ (digVal_digitChar _ (by omega) (by omega)),
    readNatDigits_step _ _ _ _ _ (digVal_digitChar _ (by omega) (by omega)),
    readNatDigits_step _ _ _ _ _ (digVal_digitChar _ (by omega) (by omega)),
    readNatDigits_step _ _ _ _ _ (digVal_digitChar _ (by omega) (by omega))]
  show some _ = some _
  congr 2
  omega

theorem readNatDigits_six (n : Int) (h0 : 0 ≤ n) (h1 : n ≤ 999999) (cs : List Char) :
    readNatDigits 6 0 (digitChar (n / 100000 % 10) :: digitChar (n / 10000 % 10) ::
      digitChar (n / 1000 % 10) :: digitChar (n / 100 % 10) ::
      digitChar (n / 10 % 10) :: digitChar (n % 10) :: cs) = some (n, cs) := by
  rw [readNatDigits_step _ _ _ _ _ (digVal_digitChar _ (by omega) (by omega)),
    readNatDigits_step _ _ _ _ _ (digVal_digitChar _ (by omega) (by omega)),
    readNatDigits_step _ _ _ _ _ (digVal_digitChar _ (by omega) (by omega)),
    readNatDigits_step _ _ _ _ _ (digVal_digitChar _ (by omega) (by omega)),
    readNatDigits_step _ _ _ _ _ (digVal_digitChar _ (by omega) (by omega)),
    readNatDigits_step _ _ _ _ _ (digVal_digitChar _ (by omega) (by omega))]
  show some _ = some _
  congr 2
  omega

theorem parseYmdTail_ok (m d : Int) (hm0 : 0 ≤ m) (hm1 : m ≤ 99)
    (hd0 : 0 ≤ d) (hd1 : d ≤ 99) :
    parseYmdTail ('-' :: digitChar (m / 10 % 10) :: digitChar (m % 10) ::
      '-' :: digitChar (d / 10 % 10) :: digitChar (d % 10) :: isoSuffix.data) =
      some (m, d) := by
  show (do
    let (m2, cs) ← readNatDigits 2 0 (digitChar (m / 10 % 10) :: digitChar (m % 10) ::
      '-' :: digitChar (d / 10 % 10) :: digitChar (d % 10) :: isoSuffix.data)
    match cs with
    | '-' :: cs => do
      let (d2, cs) ← readNatDigits 2 0 cs
      if cs = isoSuffix.data ∨ cs = [] then some (m2, d2) else none
    | _ => none) = some (m, d)
  rw [readNatDigits_two m hm0 hm1]
  show (do
    let (d2, cs) ← readNatDigits 2 0 (digitChar (d / 10 % 10) :: digitChar (d % 10) ::
      isoSuffix.data)
    if cs = isoSuffix.data ∨ cs = [] then some (m, d2) else none) = some (m, d)
  rw [readNatDigits_two d hd0 hd1]
  simp

set_option maxHeartbeats 1000000 in
/-- Printing a day number as an ISO date string and parsing it back is
the identity on the JS-representable date range (±100,000,000 days from
the epoch). -/
theorem parseISODay_isoOfDay (z : Int)
    (hlo : -100000000 ≤ z) (hhi : z ≤ 100000000) :
    parseISODay (isoOfDay z) = some z := by
  obtain ⟨hm1, hm2, hd1, hd2, hy1, hy2⟩ := civilFromDays_bounds z
  have hyrange : -999999 ≤ (civilFromDays z).year ∧ (civilFromDays z).year ≤ 999999 := by
    constructor <;> omega
  have heta : (⟨(civilFromDays z).year, (civilFromDays z).month,
      (civilFromDays z).day⟩ : CivilDate) = civilFromDays z := rfl
  have hround := daysFromCivil_civilFromDays z
  simp only [isoOfDay]
  split_ifs with hc1 hc2
  · -- four-digit year
    have hsign := digitChar_not_sign ((civilFromDays z).year / 1000 % 10)
      (by omega) (by omega)
    simp only [parseISODay, pad4, pad2, String.data_append,
      List.cons_append, List.nil_append, isoSuffix]
    rw [if_neg hsign.1, if_neg hsign.2]
    rw [readNatDigits_four _ (by omega) (by omega)]
    show (do
      let (m, d) ← parseYmdTail ('-' :: digitChar ((civilFromDays z).month / 10 % 10) ::
        digitChar ((civilFromDays z).month % 10) ::
        '-' :: digitChar ((civilFromDays z).day / 10 % 10) ::
        digitChar ((civilFromDays z).day % 10) :: isoSuffix.data)
      some (daysFromCivil ⟨(civilFromDays z).year, m, d⟩)) = some z
    rw [parseYmdTail_ok _ _ (by omega) (by omega) (by omega) (by omega)]
    show some (daysFromCivil ⟨(civilFromDays z).year, (civilFromDays z).month,
      (civilFromDays z).day⟩) = some z
    rw [heta, hround]
  · -- negative expanded year
    simp only [parseISODay, pad6, pad2, String.data_append,
      List.cons_append, List.nil_append, isoSuffix]
    rw [if_true]
    rw [readNatDigits_six _ (by omega) (by omega)]
    show (do
      let (m, d) ← parseYmdTail ('-' :: digitChar ((civilFromDays z).month / 10 % 10) ::
        digitChar ((civilFromDays z).month % 10) ::
        '-' :: digitChar ((civilFromDays z).day / 10 % 10) ::
        digitChar ((civilFromDays z).day % 10) :: isoSuffix.data)
      some (daysFromCivil ⟨-(-(civilFromDays z).year), m, d⟩)) = some z
    rw [parseYmdTail_ok _ _ (by omega) (by omega) (by omega) (by omega)]
    show some (daysFromCivil ⟨-(-(civilFromDays z).year), (civilFromDays z).month,
      (civilFromDays z).day⟩) = some z
    rw [neg_neg, heta, hround]
  · -- positive expanded year
    simp only [parseISODay, pad6, pad2, String.data_append,
      List.cons_append, List.nil_append, isoSuffix]
    rw [if_true]
    rw [readNatDigits_six _ (by omega) (by omega)]
    show (do
      let (m, d) ← parseYmdTail ('-' :: digitChar ((civilFromDays z).month / 10 % 10) ::
        digitChar ((civilFromDays z).month % 10) ::
        '-' :: digitChar ((civilFromDays z).day / 10 % 10) ::
        digitChar ((civilFromDays z).day % 10) :: isoSuffix.data)
      some (daysFromCivil ⟨(civilFromDays z).year, m, d⟩)) = some z
    rw [parseYmdTail_ok _ _ (by omega) (by omega) (by omega) (by omega)]
    show some (daysFromCivil ⟨(civilFromDays z).year, (civilFromDays z).month,
      (civilFromDays z).day⟩) = some z
    rw [heta, hround]


/-! ## Panel data model (`src/panel.js`) -/

/-- `SHOP_CONFIG` from `src/panel.js`. -/
structure ShopConfig where
  defaultMonths : Int
  defaultMiles : Int
  minMonths : Int
  maxMonths : Int
  minMiles : Int
  maxMiles : Int
  mileStep : Int
deriving Repr, DecidableEq

def SHOP_CONFIG : ShopConfig :=
  { defaultMonths := 6, defaultMiles := 6000, minMonths := 3, maxMonths := 12,
    minMiles := 3000, maxMiles := 15000, mileStep := 1000 }

/-- `getMilesForMonthInterval` from `src/panel.js`. -/
def getMilesForMonthInterval (monthInterval : Int) : Int := monthInterval * 1000

/-- A repair-order job line item as consumed by the panel: the optional
fields the classifier and the stable-id assignment read. -/
structure Job where
  id : Option String := none
  jobId : Option String := none
  name : Option String := none
  authorized : Option Bool := none
  approved : Option Bool := none
  declined : Option Bool := none
  authorizationStatus : Option String := none
  authorizedStatus : Option String := none
  approvalStatus : Option String := none
  status : Option String := none
deriving Repr, DecidableEq

/-- The repair-order snapshot fields the panel consumes. -/
structure RoData where
  shopId : Option Int := none
  mileage : Option Int := none
  jobs : List Job := []
deriving Repr, DecidableEq

/-- The in-progress booking draft (`panelState.appointment`). -/
structure Appointment where
  date : Option Int
  mileage : Option Int
  type : String
deriving Repr, DecidableEq

/-- The panel's single mutable state object (`panelState`). -/
structure PanelState where
  screen : Int
  sourceRoId : Option String
  roData : Option RoData
  monthInterval : Int
  mileInterval : Int
  appointment : Appointment
  appointmentCounts : List (String × Int)
  appointmentCountWeekKey : JVal
  appointmentCountsLoading : Bool
  repeatServices : List JVal
  declinedServices : List JVal
  customerNotes : String
deriving Repr, DecidableEq

/-- `getDefaultPanelState` from `src/panel.js`. -/
def getDefaultPanelState : PanelState :=
  { screen := 1
    sourceRoId := none
    roData := none
    monthInterval := SHOP_CONFIG.defaultMonths
    mileInterval := SHOP_CONFIG.defaultMiles
    appointment := { date := none, mileage := none, type := "dropoff" }
    appointmentCounts := []
    appointmentCountWeekKey := .null
    appointmentCountsLoading := false
    repeatServices := []
    declinedServices := []
    customerNotes := "" }

/-- The shape of the serialized state blob (`JSON.parse` of the
persisted value): every scalar field may hold an arbitrary JSON value,
which is what `hydratePanelState` validates. -/
structure RawAppointment where
  date : JVal := .null
  mileage : JVal := .null
  type : JVal := .null
deriving Repr, DecidableEq

structure RawState where
  screen : JVal := .null
  sourceRoId : JVal := .null
  roData : Option RoData := none
  monthInterval : JVal := .null
  mileInterval : JVal := .null
  appointment : Option RawAppointment := none
  appointmentCounts : Option (List (String × Int)) := none
  appointmentCountWeekKey : JVal := .null
  appointmentCountsLoading : JVal := .null
  repeatServices : JVal := .null
  declinedServices : JVal := .null
  customerNotes : JVal := .null
deriving Repr, DecidableEq

/-- `serializePanelState` from `src/panel.js`: a spread of the state
with the appointment date replaced by its ISO string (or null). -/
def serializePanelState (st : PanelState) : RawState :=
  { screen := .num st.screen
    sourceRoId := match st.sourceRoId with | none => .null | some s => .str s
    roData := st.roData
    monthInterval := .num st.monthInterval
    mileInterval := .num st.mileInterval
    appointment := some
      { date := match st.appointment.date with
          | none => .null
          | some d => .str (isoOfDay d)
        mileage := match st.appointment.mileage with
          | none => .null
          | some n => .num n
        type := .str st.appointment.type }
    appointmentCounts := some st.appointmentCounts
    appointmentCountWeekKey := st.appointmentCountWeekKey
    appointmentCountsLoading := .bool st.appointmentCountsLoading
    repeatServices := .arr st.repeatServices
    declinedServices := .arr st.declinedServices
    customerNotes := .str st.customerNotes }

/-- JS `new Date(v)` at day granularity: ISO strings parse, numbers are
epoch milliseconds; anything else gives an invalid date (modelled as
absent). -/
def jvalToDate (v : JVal) : Option Int :=
  match v with
  | .str s => parseISODay s
  | .num n => some (n / 86400000)
  | _ => none

/-- `hydratePanelState` from `src/panel.js`: field-by-field validation
of a parsed raw blob (`none` models a falsy or non-object input). -/
def hydratePanelState (rawState : Option RawState) : PanelState :=
  match rawState with
  | none => getDefaultPanelState
  | some raw =>
    { screen := jsOrNum raw.screen 1
      sourceRoId :=
        if jvalTruthy raw.sourceRoId then some (jsToString raw.sourceRoId) else none
      roData := raw.roData
      monthInterval := jsOrNum raw.monthInterval SHOP_CONFIG.defaultMonths
      mileInterval := jsOrNum raw.mileInterval SHOP_CONFIG.defaultMiles
      appointment :=
        { date := match raw.appointment with
            | none => none
            | some a => if jvalTruthy a.date then jvalToDate a.date else none
          mileage := match raw.appointment with
            | none => none
            | some a => match a.mileage with | .num n => some n | _ => none
          type := match raw.appointment with
            | none => "dropoff"
            | some a => if a.type = .str "wait" then "wait" else "dropoff" }
      appointmentCounts := raw.appointmentCounts.getD []
      appointmentCountWeekKey := raw.appointmentCountWeekKey
      appointmentCountsLoading := false
      repeatServices := match raw.repeatServices with | .arr xs => xs | _ => []
      declinedServices := match raw.declinedServices with | .arr xs => xs | _ => []
      customerNotes := match raw.customerNotes with | .str s => s | _ => "" }

/-! ## Job classifier (`src/panel.js` jobs helpers) -/

/-- `getNormalizedJobStatus`: first present raw status field, trimmed
and upper-cased. -/
def getNormalizedJobStatus (job : Job) : String :=
  jsToUpperCase (jsTrim
    (job.authorizationStatus.getD
      (job.authorizedStatus.getD
        (job.approvalStatus.getD
          (job.status.getD "")))))

/-- `isApprovedJob` from `src/panel.js`. -/
def isApprovedJob (job : Job) : Bool :=
  let status := getNormalizedJobStatus job
  if job.authorized = some true ∨ job.approved = some true then true
  else ["AUTHORIZED", "APPROVED", "SOLD", "COMPLETED"].contains status

/-- `isDeclinedJob` from `src/panel.js`. -/
def isDeclinedJob (job : Job) : Bool :=
  let status := getNormalizedJobStatus job
  if job.authorized = some false ∨ job.declined = some true then true
  else ["DECLINED", "REJECTED", "UNAUTHORIZED"].contains status

/-- `getPerformedJobs` from `src/panel.js`. -/
def getPerformedJobs (roData : Option RoData) : List Job :=
  let jobs := match roData with | none => [] | some r => r.jobs
  jobs.filter (fun j => isApprovedJob j)

/-- `getDeclinedJobs` from `src/panel.js`. -/
def getDeclinedJobs (roData : Option RoData) : List Job :=
  let jobs := match roData with | none => [] | some r => r.jobs
  jobs.filter (fun j => isDeclinedJob j)

/-- `getJobName` from `src/panel.js`. -/
def getJobName (job : Job) : String := job.name.getD "Unnamed Service"

/-- The stable id assigned to a job at position `idx` of a classified
list: its own id, else its job id, else a synthetic prefixed index. -/
def stableId (pre : String) (idx : Nat) (job : Job) : String :=
  job.id.getD (job.jobId.getD (pre ++ toString idx))

/-- The `performedWithIds` / `declinedWithIds` computation of
`renderScreen2` and `buildPurposeOfVisit`. -/
def withStableIds (pre : String) (jobs : List Job) : List (Job × String) :=
  jobs.enum.map (fun p => (p.2, stableId pre p.1 p.2))

/-! ## Smart recommendation and date window (`src/panel.js`) -/

/-- `recalculateSmartValues` from `src/panel.js`, with the ambient
current time and state passed explicitly; returns the base date it
computes together with the updated state. -/
def recalculateSmartValues (today : Int) (st : PanelState) : Int × PanelState :=
  let baseDate := addMonths today st.monthInterval
  let currentMileage := match st.roData with | none => none | some r => r.mileage
  let smartMileage := match currentMileage with
    | some m => some (m + st.mileInterval)
    | none => none
  (baseDate,
    { st with appointment :=
        { st.appointment with
            mileage := smartMileage
            date := if st.appointment.date = none then some baseDate
                    else st.appointment.date } })

/-- `getFiveSelectableDates` from `src/panel.js`. -/
def getFiveSelectableDates (baseDate : Int) : List Int :=
  let targetDate := baseDate
  let dayOfWeek := getDay targetDate
  let daysSinceMonday := if dayOfWeek = 0 then 6 else dayOfWeek - 1
  let monday := addDays targetDate (-daysSinceMonday)
  [0, 1, 2, 3, 4].map (fun offset => addDays monday offset)

/-! ## Purpose-of-visit composer (`src/panel.js`) -/

/-- Selected performed jobs, in performed-list order. -/
def repeatSelected (st : PanelState) (roData : Option RoData) : List (Job × String) :=
  (withStableIds "p" (getPerformedJobs roData)).filter
    (fun j => st.repeatServices.contains (JVal.str j.2))

/-- Selected declined jobs, in declined-list order. -/
def declinedSelected (st : PanelState) (roData : Option RoData) : List (Job × String) :=
  (withStableIds "d" (getDeclinedJobs roData)).filter
    (fun j => st.declinedServices.contains (JVal.str j.2))

/-- The appointment-type label. -/
def typeLabel (st : PanelState) : String :=
  if st.appointment.type = "wait" then "Customer Waits" else "Drop-Off"

/-- The `lines` array built by `buildPurposeOfVisit`. -/
def buildPurposeLines (st : PanelState) (roData : Option RoData) : List String :=
  let rsel := repeatSelected st roData
  let dsel := declinedSelected st roData
  let lines1 :=
    if rsel.length > 0 then
      "REPEAT SERVICES:" :: rsel.map (fun j => "  • " ++ getJobName j.1)
    else []
  let lines2 := lines1 ++
    (if dsel.length > 0 then
      (if lines1.length > 0 then [""] else []) ++
        ("PREVIOUSLY DECLINED:" :: dsel.map (fun j => "  • " ++ getJobName j.1))
    else [])
  let lines3 := lines2 ++ (if lines2.length > 0 then [""] else []) ++
    ["APPOINTMENT TYPE: " ++ typeLabel st]
  lines3 ++
    (if jsTrim st.customerNotes ≠ "" then
      ["", "CUSTOMER INSTRUCTIONS:", jsTrim st.customerNotes]
    else [])

/-- `buildPurposeOfVisit` from `src/panel.js`. -/
def buildPurposeOfVisit (st : PanelState) (roData : Option RoData) : String :=
  jsTrim (joinWith "\n" (buildPurposeLines st roData))

/-! ## Screen-2 defaults, interval edits, count fetch, panel open -/

/-- The default-selection step at the top of `renderScreen2`
(`panelState.screen = 2` plus the two select-all-if-empty rules). -/
def applyScreen2Defaults (st : PanelState) : PanelState :=
  let performedWithIds := withStableIds "p" (getPerformedJobs st.roData)
  let declinedWithIds := withStableIds "d" (getDeclinedJobs st.roData)
  let rs :=
    if st.repeatServices.length = 0 ∧ performedWithIds.length > 0 then
      performedWithIds.map (fun j => JVal.str j.2)
    else st.repeatServices
  let ds :=
    if st.declinedServices.length = 0 ∧ declinedWithIds.length > 0 then
      declinedWithIds.map (fun j => JVal.str j.2)
    else st.declinedServices
  { st with screen := 2, repeatServices := rs, declinedServices := ds }

/-- The `monthSelect.onchange` handler of `renderScreen1`. -/
def applyMonthChange (value : Int) (st : PanelState) : PanelState :=
  { st with
      monthInterval := value
      mileInterval := getMilesForMonthInterval value
      appointment := { st.appointment with date := none } }

/-- The `mileSelect.onchange` handler of `renderScreen1`. -/
def applyMileChange (value : Int) (st : PanelState) : PanelState :=
  { st with
      mileInterval := value
      appointment := { st.appointment with date := none } }

/-- An HTTP response to the counts request: `ok` is the HTTP success
flag, `success`/`counts` the body fields. -/
structure CountsResponse where
  ok : Bool
  success : Bool
  counts : Option (List (String × Int))
deriving Repr, DecidableEq

/-- Outcome of the counts request: a network error or a response. -/
inductive FetchResult where
  | netError : FetchResult
  | response (r : CountsResponse) : FetchResult
deriving Repr, DecidableEq

/-- `fetchAppointmentCounts` from `src/panel.js`: every failure mode
resolves to the empty mapping. -/
def fetchAppointmentCounts : FetchResult → List (String × Int)
  | .netError => []
  | .response r =>
    if !r.ok then []
    else if !r.success then []
    else match r.counts with
      | none => []
      | some c => c

/-- The completion of the count fetch started by `renderScreen1`: the
`then` branch stores the resolved counts and the `finally` branch
clears the loading flag. -/
def completeCountFetch (r : FetchResult) (st : PanelState) : PanelState :=
  { st with
      appointmentCounts := fetchAppointmentCounts r
      appointmentCountsLoading := false }

/-- The successful-fetch branch of `createPanel`: the fetched snapshot
and the resolved repair-order id are written into the (possibly
rehydrated) state; nothing else is touched. -/
def createPanelMerge (st : PanelState) (data : RoData) (roId : String) : PanelState :=
  { st with roData := some data, sourceRoId := some roId }

example : isApprovedJob { approved := some true } = true := by decide
example : isApprovedJob { status := some " sold " } = true := by decide
example : isDeclinedJob { authorized := some false } = true := by decide
example : isApprovedJob { approved := some false, status := some "APPROVED" } = true := by
  decide
example : buildPurposeOfVisit getDefaultPanelState none = "APPOINTMENT TYPE: Drop-Off" := by
  decide

/-! ## Claim C10: `authorized: false` always classifies as declined -/

/-- C10: every job whose `authorized` field is exactly the boolean
`false` is classified as declined, regardless of its status string and
of its `declined` flag. -/
theorem c10_authorized_false_forces_declined (job : Job)
    (h : job.authorized = some false) : isDeclinedJob job = true := by
  simp only [isDeclinedJob]
  rw [if_pos (Or.inl h)]

theorem c10_authorized_false_forces_declined_witness :
    isDeclinedJob
      { authorized := some false, declined := some false,
        status := some "COMPLETED" } = true :=
  c10_authorized_false_forces_declined _ rfl

/-! ## Claim C1: precedence of explicit boolean flags over status -/

def c1ApprovedJob : Job := { approved := some false, status := some "APPROVED" }

def c1DeclinedJob : Job := { declined := some false, status := some "DECLINED" }

/-- C1 counterexample: a job with `approved: false` but normalized
status `APPROVED` IS classified as performed, and a job with
`declined: false` but status `DECLINED` IS classified as declined — the
false boolean does not win over the status string. -/
theorem c1_boolean_wins_counterexample :
    c1ApprovedJob.approved = some false ∧
    getNormalizedJobStatus c1ApprovedJob = "APPROVED" ∧
    isApprovedJob c1ApprovedJob = true ∧
    c1DeclinedJob.declined = some false ∧
    getNormalizedJobStatus c1DeclinedJob = "DECLINED" ∧
    isDeclinedJob c1DeclinedJob = true := by decide

/-- C1 (amended): the explicit boolean flag wins only when it is the
positive trigger (`authorized`/`approved` true forces performed;
`authorized` false or `declined` true forces declined); a `false`
`approved`/`declined` flag does not suppress the status-based
classification of the same job. -/
theorem c1_boolean_precedence (job : Job) :
    ((job.authorized = some true ∨ job.approved = some true) →
      isApprovedJob job = true) ∧
    ((job.authorized = some false ∨ job.declined = some true) →
      isDeclinedJob job = true) ∧
    (job.approved = some false → job.authorized ≠ some true →
      ["AUTHORIZED", "APPROVED", "SOLD", "COMPLETED"].contains
        (getNormalizedJobStatus job) = true →
      isApprovedJob job = true) ∧
    (job.declined = some false → job.authorized ≠ some false →
      ["DECLINED", "REJECTED", "UNAUTHORIZED"].contains
        (getNormalizedJobStatus job) = true →
      isDeclinedJob job = true) := by
  refine ⟨?_, ?_, ?_, ?_⟩
  · intro h
    simp only [isApprovedJob]
    rw [if_pos h]
  · intro h
    simp only [isDeclinedJob]
    rw [if_pos h]
  · intro _ _ h3
    simp only [isApprovedJob]
    split_ifs with hc
    · rfl
    · exact h3
  · intro _ _ h3
    simp only [isDeclinedJob]
    split_ifs with hc
    · rfl
    · exact h3

theorem c1_boolean_precedence_witness :
    isApprovedJob { authorized := some true } = true ∧
    isDeclinedJob { declined := some true } = true ∧
    isApprovedJob c1ApprovedJob = true ∧
    isDeclinedJob c1DeclinedJob = true :=
  ⟨(c1_boolean_precedence _).1 (Or.inl rfl),
   (c1_boolean_precedence _).2.1 (Or.inr rfl),
   (c1_boolean_precedence _).2.2.1 rfl (by decide) (by decide),
   (c1_boolean_precedence _).2.2.2 rfl (by decide) (by decide)⟩

/-! ## Claim C8: independence of the interval controls -/

def c8State : PanelState :=
  { getDefaultPanelState with monthInterval := 6, mileInterval := 9000 }

/-- C8 counterexample: changing the month interval does NOT leave the
mile interval unchanged — it resets it to `monthInterval * 1000`. -/
theorem c8_interval_coupling_counterexample :
    c8State.mileInterval = 9000 ∧
    (applyMonthChange 4 c8State).monthInterval = 4 ∧
    (applyMonthChange 4 c8State).mileInterval = 4000 := by decide

/-- C8 (amended): changing the mile interval leaves the month interval
unchanged, but changing the month interval also resets the mile
interval to `monthInterval * 1000` (still inside the 3000–15000 range
for months 3–12); both handlers clear the draft date. -/
theorem c8_interval_independence (st : PanelState) (value : Int) :
    (applyMileChange value st).monthInterval = st.monthInterval ∧
    (applyMileChange value st).mileInterval = value ∧
    (applyMonthChange value st).monthInterval = value ∧
    (applyMonthChange value st).mileInterval = getMilesForMonthInterval value ∧
    (applyMonthChange value st).appointment.date = none ∧
    (applyMileChange value st).appointment.date = none ∧
    (SHOP_CONFIG.minMonths ≤ value → value ≤ SHOP_CONFIG.maxMonths →
      SHOP_CONFIG.minMiles ≤ (applyMonthChange value st).mileInterval ∧
      (applyMonthChange value st).mileInterval ≤ SHOP_CONFIG.maxMiles) := by
  refine ⟨rfl, rfl, rfl, rfl, rfl, rfl, fun h1 h2 => ?_⟩
  simp only [applyMonthChange, getMilesForMonthInterval, SHOP_CONFIG] at *
  exact ⟨by omega, by omega⟩

theorem c8_interval_independence_witness :
    (applyMileChange 4000 c8State).monthInterval = 6 ∧
    (applyMonthChange 4 c8State).mileInterval = 4000 ∧
    3000 ≤ (applyMonthChange 4 c8State).mileInterval := by
  have h := c8_interval_independence c8State 4
  have h2 := c8_interval_independence c8State 4000
  exact ⟨h2.1.trans (by decide), h.2.2.2.1.trans (by decide),
    (h.2.2.2.2.2.2 (by decide) (by decide)).1⟩

/-! ## Claim C7: screen-2 defaults only fill empty selection sets -/

def c7Ro : RoData := { jobs := [{ id := some "301", approved := some true }] }

def c7State : PanelState :=
  { getDefaultPanelState with roData := some c7Ro, screen := 2 }

/-- C7 counterexample: after the user deselects every repeat service
(empty selection set), re-entering screen 2 silently reapplies the
select-all default, overwriting the user's edit. -/
theorem c7_reentry_counterexample :
    c7State.repeatServices = [] ∧
    (applyScreen2Defaults c7State).repeatServices = [JVal.str "301"] := by decide

/-- C7 (amended): re-rendering screen 2 applies the select-all defaults
only to a selection set that is currently empty, so any NON-empty
selection set is preserved exactly; but a group the user has fully
deselected is reset to select-all on re-entry. -/
theorem c7_reentry_defaults (st : PanelState) :
    (st.repeatServices ≠ [] →
      (applyScreen2Defaults st).repeatServices = st.repeatServices) ∧
    (st.declinedServices ≠ [] →
      (applyScreen2Defaults st).declinedServices = st.declinedServices) ∧
    (st.repeatServices = [] → withStableIds "p" (getPerformedJobs st.roData) ≠ [] →
      (applyScreen2Defaults st).repeatServices =
        (withStableIds "p" (getPerformedJobs st.roData)).map (fun j => JVal.str j.2)) ∧
    (st.declinedServices = [] → withStableIds "d" (getDeclinedJobs st.roData) ≠ [] →
      (applyScreen2Defaults st).declinedServices =
        (withStableIds "d" (getDeclinedJobs st.roData)).map (fun j => JVal.str j.2)) := by
  refine ⟨?_, ?_, ?_, ?_⟩
  · intro h
    simp only [applyScreen2Defaults]
    rw [if_neg]
    intro hc
    exact h (List.length_eq_zero.mp hc.1)
  · intro h
    simp only [applyScreen2Defaults]
    rw [if_neg]
    intro hc
    exact h (List.length_eq_zero.mp hc.1)
  · intro h hne
    simp only [applyScreen2Defaults]
    rw [if_pos ⟨by rw [h]; rfl, List.length_pos.mpr hne⟩]
  · intro h hne
    simp only [applyScreen2Defaults]
    rw [if_pos ⟨by rw [h]; rfl, List.length_pos.mpr hne⟩]

theorem c7_reentry_defaults_witness :
    (applyScreen2Defaults
      { c7State with repeatServices := [JVal.str "userpick"] }).repeatServices =
      [JVal.str "userpick"] ∧
    (applyScreen2Defaults c7State).repeatServices = [JVal.str "301"] := by
  constructor
  · exact (c7_reentry_defaults _).1 (by decide)
  · exact ((c7_reentry_defaults c7State).2.2.1 rfl (by decide)).trans (by decide)

/-! ## Claim C9: failed count fetches degrade to the empty mapping -/

/-- A failed counts request: network error, HTTP failure, non-success
body, or missing counts. -/
def isFailedFetch (r : FetchResult) : Prop :=
  r = .netError ∨ ∃ resp, r = .response resp ∧
    (resp.ok = false ∨ resp.success = false ∨ resp.counts = none)

/-- C9: a failed count fetch resolves to the empty mapping, clears the
loading flag, and leaves the draft appointment (hence the date
selection) and the screen untouched. -/
theorem c9_count_fetch_failure (r : FetchResult) (st : PanelState)
    (h : isFailedFetch r) :
    (completeCountFetch r st).appointmentCounts = [] ∧
    (completeCountFetch r st).appointmentCountsLoading = false ∧
    (completeCountFetch r st).appointment = st.appointment ∧
    (completeCountFetch r st).screen = st.screen := by
  refine ⟨?_, rfl, rfl, rfl⟩
  rcases h with h | ⟨resp, hr, hfail⟩
  · rw [h]; rfl
  · rw [hr]
    rcases resp with ⟨ok, success, counts⟩
    simp only [completeCountFetch, fetchAppointmentCounts]
    rcases hfail with h | h | h <;> simp only at h <;> subst h <;> simp

theorem c9_count_fetch_failure_witness :
    (completeCountFetch (.response { ok := true, success := false, counts := some [("2026-10-12", 3)] })
      getDefaultPanelState).appointmentCounts = [] ∧
    (completeCountFetch .netError getDefaultPanelState).appointmentCountsLoading = false := by
  have h1 := c9_count_fetch_failure
    (.response { ok := true, success := false, counts := some [("2026-10-12", 3)] })
    getDefaultPanelState (Or.inr ⟨_, rfl, Or.inr (Or.inl rfl)⟩)
  have h2 := c9_count_fetch_failure .netError getDefaultPanelState (Or.inl rfl)
  exact ⟨h1.1, h2.2.1⟩

/-! ## Claim C2: the smart recommendation recomputation -/

/-- C2: for any month interval in `[3, 12]`, the recomputation returns
a base date of today plus that many calendar months; the draft mileage
is always overwritten with current mileage plus the mile interval (or
absent when no finite mileage is known), the draft date is set to the
base date only when none is chosen yet, and the intervals and the rest
of the draft are untouched. -/
theorem c2_smart_recommendation (today : Int) (st : PanelState)
    (h1 : 3 ≤ st.monthInterval) (h2 : st.monthInterval ≤ 12) :
    (recalculateSmartValues today st).1 = addMonths today st.monthInterval ∧
    (recalculateSmartValues today st).2.appointment.mileage =
      ((st.roData.bind RoData.mileage).map (fun m => m + st.mileInterval)) ∧
    ((recalculateSmartValues today st).2.appointment.date =
      if st.appointment.date = none then some (addMonths today st.monthInterval)
      else st.appointment.date) ∧
    (recalculateSmartValues today st).2.monthInterval = st.monthInterval ∧
    (recalculateSmartValues today st).2.mileInterval = st.mileInterval ∧
    (recalculateSmartValues today st).2.appointment.type = st.appointment.type ∧
    (recalculateSmartValues today st).2.repeatServices = st.repeatServices ∧
    (recalculateSmartValues today st).2.roData = st.roData := by
  refine ⟨rfl, ?_, rfl, rfl, rfl, rfl, rfl, rfl⟩
  rcases hro : st.roData with _ | ro
  · simp [recalculateSmartValues, hro]
  · rcases hml : ro.mileage with _ | m <;>
      simp [recalculateSmartValues, hro, hml]

def c2State : PanelState :=
  { getDefaultPanelState with roData := some { mileage := some 50000 } }

theorem c2_smart_recommendation_witness :
    (recalculateSmartValues 20737 c2State).2.appointment.mileage = some 56000 ∧
    (recalculateSmartValues 20737 c2State).2.appointment.date =
      some (addMonths 20737 6) := by
  have h := c2_smart_recommendation 20737 c2State (by decide) (by decide)
  exact ⟨h.2.1.trans (by decide), h.2.2.1.trans (by decide)⟩

/-! ## Claim C3: the five-day Monday-to-Friday window -/

/-- C3: the date-window selector returns exactly five consecutive
calendar dates; the first is the most recent Monday on or before the
base date, the days run Monday through Friday, and for a Saturday or
Sunday base date the window (still that week's Monday through Friday)
does not contain the base date itself. -/
theorem c3_five_selectable_dates (base : Int) :
    ∃ monday : Int,
      getFiveSelectableDates base =
        [monday, monday + 1, monday + 2, monday + 3, monday + 4] ∧
      getDay monday = 1 ∧ getDay (monday + 1) = 2 ∧ getDay (monday + 2) = 3 ∧
      getDay (monday + 3) = 4 ∧ getDay (monday + 4) = 5 ∧
      monday ≤ base ∧ base ≤ monday + 6 ∧
      (∀ d : Int, getDay d = 1 → d ≤ base → d ≤ monday) ∧
      ((getDay base = 6 ∨ getDay base = 0) → base ∉ getFiveSelectableDates base) := by
  refine ⟨base + -(if getDay base = 0 then 6 else getDay base - 1),
    ?_, ?_, ?_, ?_, ?_, ?_, ?_, ?_, ?_, ?_⟩
  · simp only [getFiveSelectableDates, List.map_cons, List.map_nil, addDays, add_zero]
  · simp only [getDay] at *
    split_ifs <;> omega
  · simp only [getDay] at *
    split_ifs <;> omega
  · simp only [getDay] at *
    split_ifs <;> omega
  · simp only [getDay] at *
    split_ifs <;> omega
  · simp only [getDay] at *
    split_ifs <;> omega
  · simp only [getDay] at *
    split_ifs <;> omega
  · simp only [getDay] at *
    split_ifs <;> omega
  · intro d h1 h2
    simp only [getDay] at *
    split_ifs <;> omega
  · intro hwe
    simp only [getFiveSelectableDates, List.map_cons, List.map_nil, addDays,
      List.mem_cons, List.not_mem_nil, or_false, getDay] at hwe ⊢
    intro hmem
    rcases hwe with hw | hw <;> rcases hmem with h | h | h | h | h <;>
      split_ifs at h <;> omega

theorem c3_five_selectable_dates_witness :
    (20737 : Int) ∉ getFiveSelectableDates 20737 ∧
    getFiveSelectableDates 20737 = [20731, 20732, 20733, 20734, 20735] := by
  obtain ⟨m, hlist, h1, h2, h3, h4, h5, hle1, hle2, hmax, hwe⟩ :=
    c3_five_selectable_dates 20737
  exact ⟨hwe (Or.inr (by decide)), by decide⟩

/-! ## Claim C4: purpose-of-visit composition -/

theorem str_empty_append (s : String) : "" ++ s = s := rfl

theorem str_nl2 : ("\n" : String) ++ "\n" = "\n\n" := by decide

theorem joinWith_blank_break (xs ys : List String) (hxs : xs ≠ []) (hys : ys ≠ []) :
    joinWith "\n" (xs ++ "" :: ys) = joinWith "\n" xs ++ "\n\n" ++ joinWith "\n" ys := by
  rw [joinWith_append "\n" xs ("" :: ys) hxs (by simp)]
  cases ys with
  | nil => exact absurd rfl hys
  | cons y ys =>
    rw [joinWith_cons2, str_empty_append, ← String.append_assoc,
      String.append_assoc (joinWith "\n" xs), str_nl2]

theorem joinWith_cons_blank (x : String) (ys : List String) (hys : ys ≠ []) :
    joinWith "\n" (x :: "" :: ys) = x ++ "\n\n" ++ joinWith "\n" ys := by
  have h := joinWith_blank_break [x] ys (by simp) hys
  simpa [joinWith_single] using h

theorem joinWith_cons_append_blank (x : String) (xs ys : List String) (hys : ys ≠ []) :
    joinWith "\n" (x :: (xs ++ "" :: ys)) =
      joinWith "\n" (x :: xs) ++ "\n\n" ++ joinWith "\n" ys := by
  have h := joinWith_blank_break (x :: xs) ys (by simp) hys
  simpa using h

theorem append_nl_nl (a b : String) : a ++ "\n" ++ ("\n" ++ b) = a ++ "\n\n" ++ b := by
  rw [← String.append_assoc, String.append_assoc a, str_nl2]

/-- The purpose-of-visit text as the specification describes it: the
present sections, in fixed order, joined by one blank line, trimmed. -/
def purposeSectionsSpec (st : PanelState) (roData : Option RoData) : List String :=
  (if repeatSelected st roData ≠ [] then
    [joinWith "\n" ("REPEAT SERVICES:" ::
      (repeatSelected st roData).map (fun j => "  • " ++ getJobName j.1))]
  else []) ++
  (if declinedSelected st roData ≠ [] then
    [joinWith "\n" ("PREVIOUSLY DECLINED:" ::
      (declinedSelected st roData).map (fun j => "  • " ++ getJobName j.1))]
  else []) ++
  ["APPOINTMENT TYPE: " ++ typeLabel st] ++
  (if jsTrim st.customerNotes ≠ "" then
    ["CUSTOMER INSTRUCTIONS:" ++ "\n" ++ jsTrim st.customerNotes]
  else [])

def buildPurposeOfVisitSpec (st : PanelState) (roData : Option RoData) : String :=
  jsTrim (joinWith "\n\n" (purposeSectionsSpec st roData))

/-- C4: the purpose-of-visit composer is a pure function equal to the
specification's composition — the present sections in the fixed order
REPEAT SERVICES, PREVIOUSLY DECLINED, APPOINTMENT TYPE, CUSTOMER
INSTRUCTIONS, joined by one blank line, each section omitted when its
selection set is empty, the type line always present, the instructions
section present exactly when the trimmed notes are non-empty, and the
result trimmed; in particular the empty-selection dropoff instance is
exactly the type line. -/
theorem c4_purpose_composition (st : PanelState) (roData : Option RoData) :
    buildPurposeOfVisit st roData = buildPurposeOfVisitSpec st roData ∧
    buildPurposeOfVisit getDefaultPanelState none = "APPOINTMENT TYPE: Drop-Off" := by
  refine ⟨?_, by decide⟩
  by_cases hr : repeatSelected st roData = [] <;>
    by_cases hd : declinedSelected st roData = [] <;>
      by_cases hn : jsTrim st.customerNotes = "" <;>
        simp [buildPurposeOfVisit, buildPurposeOfVisitSpec, buildPurposeLines,
          purposeSectionsSpec, List.length_pos, hr, hd, hn,
          joinWith_cons_append_blank, joinWith_cons_blank, joinWith_cons2,
          joinWith_single, append_nl_nl]

/-! ## Claim C5: serialize/hydrate round trip -/

attribute [ext] Appointment PanelState

theorem isoOfDay_ne_empty (z : Int) : isoOfDay z ≠ "" := by
  simp only [isoOfDay]
  split_ifs <;> intro h <;> apply congrArg String.data at h <;>
    simp [String.data_append, pad2, pad4, pad6] at h

def c5LoadingState : PanelState :=
  { getDefaultPanelState with appointmentCountsLoading := true }

def c5BadRaw : RawState := { appointmentCountWeekKey := .num 42 }

/-- C5 counterexample: hydration does not reproduce an equivalent
state for every `PanelState` and does not default every wrong-typed
field — a state with the loading flag set round-trips to one with it
cleared, and a numeric `appointmentCountWeekKey` is passed through
unvalidated instead of falling back to the default `null`. -/
theorem c5_roundtrip_counterexample :
    c5LoadingState.appointmentCountsLoading = true ∧
    (hydratePanelState
      (some (serializePanelState c5LoadingState))).appointmentCountsLoading = false ∧
    getDefaultPanelState.appointmentCountWeekKey = JVal.null ∧
    (hydratePanelState (some c5BadRaw)).appointmentCountWeekKey = JVal.num 42 := by
  decide

/-- C5 (amended): serializing then hydrating a panel state whose
fields are panel-producible (non-zero screen and intervals, non-empty
source id, known appointment type, JS-representable dates) reproduces
the state exactly except that the loading flag is always reset to
false; hydration of a non-object is the default state, and wrong-typed
screen, selection-list and notes fields fall back to their defaults,
while `appointmentCountWeekKey` (like `roData` and
`appointmentCounts`) is passed through unvalidated. -/
theorem c5_state_roundtrip :
    (∀ st : PanelState,
      st.screen ≠ 0 → st.monthInterval ≠ 0 → st.mileInterval ≠ 0 →
      st.sourceRoId ≠ some "" →
      (st.appointment.type = "dropoff" ∨ st.appointment.type = "wait") →
      (∀ d, st.appointment.date = some d → -100000000 ≤ d ∧ d ≤ 100000000) →
      hydratePanelState (some (serializePanelState st)) =
        { st with appointmentCountsLoading := false }) ∧
    hydratePanelState none = getDefaultPanelState ∧
    (∀ raw : RawState,
      (hydratePanelState (some raw)).appointmentCountsLoading = false ∧
      (hydratePanelState (some raw)).appointmentCountWeekKey =
        raw.appointmentCountWeekKey ∧
      (jsToNumber raw.screen = none ∨ jsToNumber raw.screen = some 0 →
        (hydratePanelState (some raw)).screen = 1) ∧
      ((∀ xs, raw.repeatServices ≠ .arr xs) →
        (hydratePanelState (some raw)).repeatServices = []) ∧
      ((∀ s, raw.customerNotes ≠ .str s) →
        (hydratePanelState (some raw)).customerNotes = "")) := by
  refine ⟨?_, rfl, ?_⟩
  · rintro ⟨scr, sid, ro, mi, mli, ⟨date, mil, ty⟩, cnts, wk, ld, rs, ds, notes⟩
      h1 h2 h3 h4 h5 h6
    simp only at h1 h2 h3 h4 h5 h6
    refine PanelState.ext ?_ ?_ ?_ ?_ ?_ (Appointment.ext ?_ ?_ ?_) ?_ ?_ ?_ ?_ ?_ ?_
    · simp [serializePanelState, hydratePanelState, jsOrNum, jsToNumber, h1]
    · cases sid with
      | none => simp [serializePanelState, hydratePanelState, jvalTruthy]
      | some s =>
        have hs : s ≠ "" := fun h => h4 (by rw [h])
        simp [serializePanelState, hydratePanelState, jvalTruthy, jsToString, hs]
    · rfl
    · simp [serializePanelState, hydratePanelState, jsOrNum, jsToNumber, h2]
    · simp [serializePanelState, hydratePanelState, jsOrNum, jsToNumber, h3]
    · cases date with
      | none => simp [serializePanelState, hydratePanelState, jvalTruthy]
      | some d =>
        obtain ⟨hb1, hb2⟩ := h6 d rfl
        simp [serializePanelState, hydratePanelState, jvalTruthy, jvalToDate,
          isoOfDay_ne_empty d, parseISODay_isoOfDay d hb1 hb2]
    · cases mil <;> rfl
    · rcases h5 with h | h <;> subst h <;>
        simp [serializePanelState, hydratePanelState]
    · rfl
    · rfl
    · rfl
    · rfl
    · rfl
    · rfl
  · intro raw
    refine ⟨rfl, rfl, ?_, ?_, ?_⟩
    · intro h
      simp only [hydratePanelState, jsOrNum]
      rcases h with h | h <;> simp [h]
    · intro h
      rcases hrv : raw.repeatServices with _ | b | n | s | xs <;>
        simp only [hydratePanelState, hrv] <;>
        first
          | rfl
          | exact absurd hrv (h _)
    · intro h
      rcases hrv : raw.customerNotes with _ | b | n | s | xs <;>
        simp only [hydratePanelState, hrv] <;>
        first
          | rfl
          | exact absurd hrv (h _)

def c5WitnessState : PanelState :=
  { getDefaultPanelState with
      sourceRoId := some "42"
      appointment := { date := some 20737, mileage := some 56000, type := "wait" }
      repeatServices := [JVal.str "p0"]
      customerNotes := "loaner" }

theorem c5_state_roundtrip_witness :
    hydratePanelState (some (serializePanelState c5WitnessState)) =
      { c5WitnessState with appointmentCountsLoading := false } :=
  c5_state_roundtrip.1 c5WitnessState (by decide) (by decide) (by decide) (by decide)
    (Or.inr rfl)
    (by intro d h; simp only [c5WitnessState] at h;
        rw [Option.some.injEq] at h; subst h; exact ⟨by decide, by decide⟩)

/-! ## Claim C6: selection sets versus the current snapshot -/

def c6OldState : PanelState :=
  { getDefaultPanelState with
      sourceRoId := some "1"
      repeatServices := [JVal.str "101"] }

def c6PersistedRaw : RawState := serializePanelState c6OldState

def c6NewRo : RoData :=
  { shopId := some 5, mileage := some 40000,
    jobs := [{ id := some "201", name := some "Oil Change", approved := some true }] }

def c6ReopenedState : PanelState :=
  createPanelMerge (hydratePanelState (some c6PersistedRaw)) c6NewRo "2"

def c6Screen2State : PanelState := applyScreen2Defaults c6ReopenedState

/-- C6: the invariant fails on the code — when a persisted session for
repair order "1" is rehydrated on a page for repair order "2", neither
hydration, nor the snapshot merge of `createPanel`, nor the screen-2
default pass clears the old selection: the state keeps the stale
identifier "101", which is not a stable id of any job of the current
snapshot, and its presence suppresses the select-all default for the
new repair order. -/
theorem c6_stale_selection_leak :
    c6OldState.sourceRoId = some "1" ∧
    c6ReopenedState.sourceRoId = some "2" ∧
    c6ReopenedState.roData = some c6NewRo ∧
    c6Screen2State.repeatServices = [JVal.str "101"] ∧
    (withStableIds "p" (getPerformedJobs c6Screen2State.roData)).map
      (fun j => JVal.str j.2) = [JVal.str "201"] ∧
    JVal.str "101" ∉
      ((withStableIds "p" (getPerformedJobs c6Screen2State.roData)).map
        (fun j => JVal.str j.2) ++
       (withStableIds "d" (getDeclinedJobs c6Screen2State.roData)).map
        (fun j => JVal.str j.2)) := by
  decide
